import Mathlib

/-!
Shallow embedding of the indexed-ontology core (src/ontology/indexed.rs) and of the
vocabulary type-resolution helper (src/vocab.rs) of the horned-owl repository,
together with proofs of the specified properties.

Modelling conventions:
* Rust `&mut self` methods become state-passing functions `state → args → state × result`.
* Every index operation additionally returns a `List Ev` of invocation events; the
  composite definitions concatenate these lists in the evaluation order of the Rust
  source, so that "each slot is invoked exactly once, in left-to-right order" becomes
  a statement about the produced event list.  Concrete indices emit no events of
  their own; `PlainOps.counted` is the "slot instrumented to count calls" from the
  spec, and `Ev.conv` is emitted at the single handle-conversion site in `insert`.
* `Rc`/`Arc` shared handles are modelled by the value they contain (sharing is not
  observable by the pure semantics); the handle type `AA` and the conversion
  `toH : A → AA` stay abstract parameters, matching the generic Rust code.
* Rust strings are modelled as their UTF-8 byte lists (`List Nat`), because
  `entity_for_iri` slices the type IRI at a byte offset.  A Rust panic (string
  slicing off a character boundary) is modelled as the result `none`.
-/

/-- Invocation events recorded by the embedding: `conv` marks the single
axiom-to-handle conversion performed by a composite `insert`; `ins t` / `rem t`
mark one `index_insert` / `index_remove` call on the slot instrumented with tag `t`. -/
inductive Ev where
  | conv : Ev
  | ins : Nat → Ev
  | rem : Nat → Ev
deriving DecidableEq

section Indexed

variable {A AA : Type} {σ σ1 σ2 σ3 σ4 : Type} {Ir : Type}

/-- Embeds the `OntologyIndex` trait (indexed.rs:72-94): a state type `σ` with
`index_insert` (takes a handle `AA`) and `index_remove` (takes the logical axiom `A`),
each returning the new state, the boolean result, and the invocation events. -/
structure OntologyIndexOps (A AA σ : Type) where
  index_insert : σ → AA → σ × Bool × List Ev
  index_remove : σ → A → σ × Bool × List Ev

/-- Embeds the provided method `OntologyIndex::index_take` (indexed.rs:87-93):
`if self.index_remove(ax) { Some(ax.clone()) } else { None }`. -/
def OntologyIndexOps.index_take (op : OntologyIndexOps A AA σ) (s : σ) (ax : A) :
    σ × Option A × List Ev :=
  let r := op.index_remove s ax
  (r.1, if r.2.1 then some ax else none, r.2.2)

/-- A concrete (uninstrumented) index implementation: no event log, mirroring the
shape of the Rust trait methods directly. -/
structure PlainOps (A AA σ : Type) where
  ins : σ → AA → σ × Bool
  rem : σ → A → σ × Bool

/-- Lift a concrete index into the logged interface, emitting no events. -/
def PlainOps.silent (p : PlainOps A AA σ) : OntologyIndexOps A AA σ where
  index_insert s ax := ((p.ins s ax).1, (p.ins s ax).2, [])
  index_remove s ax := ((p.rem s ax).1, (p.rem s ax).2, [])

/-- Lift a concrete index into the logged interface, instrumented with tag `t`:
every `index_insert` call emits `Ev.ins t` and every `index_remove` call emits
`Ev.rem t`.  This is the "slot instrumented to count calls" of the spec. -/
def PlainOps.counted (p : PlainOps A AA σ) (t : Nat) : OntologyIndexOps A AA σ where
  index_insert s ax := ((p.ins s ax).1, (p.ins s ax).2, [Ev.ins t])
  index_remove s ax := ((p.rem s ax).1, (p.rem s ax).2, [Ev.rem t])

/-- Embeds `NullIndex` (indexed.rs:96-109): stateless, insert and remove always
return `false` and do nothing. -/
def NullIndex : PlainOps A AA Unit where
  ins s _ := (s, false)
  rem s _ := (s, false)

/-- Modelled from the spec: `SetIndex` (src/ontology/set.rs, not under src/) is the
canonical durable, complete index: it stores every inserted handle in a set;
`index_insert` returns `true` iff the handle was not already present;
`index_remove` removes and returns `true` iff present.  Modelled with the handle
type equal to the axiom type (sharing is invisible to the pure semantics) and the
set as a duplicate-free list. -/
def SetIndex [DecidableEq A] : PlainOps A A (List A) where
  ins s ax := if ax ∈ s then (s, false) else (ax :: s, true)
  rem s ax := if ax ∈ s then (s.erase ax, true) else (s, false)

/-- Modelled from the spec: the ontology identity record (`OntologyID`, from the
model module which is not under src/).  Its internal shape is opaque to the indexed
core; a single optional identifier field suffices for every claim. -/
structure OntologyID (Ir : Type) where
  identifier : Option Ir
deriving DecidableEq

/-- Modelled from the spec: `Default::default()` for the identity record. -/
def OntologyID.default : OntologyID Ir := ⟨none⟩

/-- Embeds `OneIndexedOntology` (indexed.rs:114): tuple struct of one index slot,
the `OntologyID`, the optional document IRI (and a `PhantomData`, which is dropped). -/
structure OneIndexedOntology (σ Ir : Type) where
  i : σ
  oid : OntologyID Ir
  doc : Option Ir

/-- Embeds `OneIndexedOntology::new` (indexed.rs:128-135). -/
def OneIndexedOntology.new (i : σ) : OneIndexedOntology σ Ir :=
  ⟨i, OntologyID.default, none⟩

/-- Embeds `OneIndexedOntology::index` (indexed.rs:141-143): decompose into the slot. -/
def OneIndexedOntology.index (o : OneIndexedOntology σ Ir) : σ := o.i

/-- Embeds `Ontology::id` for `OneIndexedOntology` (indexed.rs:167-169). -/
def OneIndexedOntology.id (o : OneIndexedOntology σ Ir) : OntologyID Ir := o.oid

/-- Embeds `Ontology::mut_id` for `OneIndexedOntology` (indexed.rs:171-173); a
mutable borrow of the identity field is modelled as a setter. -/
def OneIndexedOntology.set_id (o : OneIndexedOntology σ Ir) (v : OntologyID Ir) :
    OneIndexedOntology σ Ir := ⟨o.i, v, o.doc⟩

/-- Embeds `Ontology::doc_iri` for `OneIndexedOntology` (indexed.rs:175-177). -/
def OneIndexedOntology.doc_iri (o : OneIndexedOntology σ Ir) : Option Ir := o.doc

/-- Embeds `Ontology::mut_doc_iri` for `OneIndexedOntology` (indexed.rs:179-181),
as a setter. -/
def OneIndexedOntology.set_doc_iri (o : OneIndexedOntology σ Ir) (v : Option Ir) :
    OneIndexedOntology σ Ir := ⟨o.i, o.oid, v⟩

/-- Embeds `MutableOntology::insert` for `OneIndexedOntology` (indexed.rs:187-190):
convert the axiom to a handle (the event `Ev.conv` marks this single conversion)
and `index_insert` it into the slot. -/
def OneIndexedOntology.insert (toH : A → AA) (op : OntologyIndexOps A AA σ)
    (o : OneIndexedOntology σ Ir) (ax : A) : OneIndexedOntology σ Ir × Bool × List Ev :=
  let r := op.index_insert o.i (toH ax)
  (⟨r.1, o.oid, o.doc⟩, r.2.1, Ev.conv :: r.2.2)

/-- Embeds `MutableOntology::take` for `OneIndexedOntology` (indexed.rs:192-194):
`self.0.index_take(ax)`. -/
def OneIndexedOntology.take (op : OntologyIndexOps A AA σ)
    (o : OneIndexedOntology σ Ir) (ax : A) : OneIndexedOntology σ Ir × Option A × List Ev :=
  let r := op.index_take o.i ax
  (⟨r.1, o.oid, o.doc⟩, r.2.1, r.2.2)

/-- Modelled from the spec: `MutableOntology::remove` (model module, not under src/)
is derived from `take`: `remove(ax) = take(ax).is_some()`. -/
def OneIndexedOntology.remove (op : OntologyIndexOps A AA σ)
    (o : OneIndexedOntology σ Ir) (ax : A) : OneIndexedOntology σ Ir × Bool × List Ev :=
  let r := OneIndexedOntology.take op o ax
  (r.1, r.2.1.isSome, r.2.2)

/-- Embeds `TwoIndexedOntology` (indexed.rs:200-206): two index slots, the
`OntologyID`, the optional document IRI. -/
structure TwoIndexedOntology (σ1 σ2 Ir : Type) where
  i : σ1
  j : σ2
  oid : OntologyID Ir
  doc : Option Ir

/-- Embeds `TwoIndexedOntology::new` (indexed.rs:211-213). -/
def TwoIndexedOntology.new (i : σ1) (j : σ2) (id : OntologyID Ir) :
    TwoIndexedOntology σ1 σ2 Ir := ⟨i, j, id, none⟩

/-- Embeds `TwoIndexedOntology::index` (indexed.rs:223-225): decompose into the
pair of slots. -/
def TwoIndexedOntology.index (o : TwoIndexedOntology σ1 σ2 Ir) : σ1 × σ2 := (o.i, o.j)

/-- Embeds `Ontology::id` for `TwoIndexedOntology` (indexed.rs:231-233). -/
def TwoIndexedOntology.id (o : TwoIndexedOntology σ1 σ2 Ir) : OntologyID Ir := o.oid

/-- Embeds `Ontology::mut_id` for `TwoIndexedOntology` (indexed.rs:235-237), as a setter. -/
def TwoIndexedOntology.set_id (o : TwoIndexedOntology σ1 σ2 Ir) (v : OntologyID Ir) :
    TwoIndexedOntology σ1 σ2 Ir := ⟨o.i, o.j, v, o.doc⟩

/-- Embeds `Ontology::doc_iri` for `TwoIndexedOntology` (indexed.rs:239-241). -/
def TwoIndexedOntology.doc_iri (o : TwoIndexedOntology σ1 σ2 Ir) : Option Ir := o.doc

/-- Embeds `Ontology::mut_doc_iri` for `TwoIndexedOntology` (indexed.rs:243-245), as a setter. -/
def TwoIndexedOntology.set_doc_iri (o : TwoIndexedOntology σ1 σ2 Ir) (v : Option Ir) :
    TwoIndexedOntology σ1 σ2 Ir := ⟨o.i, o.j, o.oid, v⟩

/-- Embeds `OntologyIndex::index_insert` for `TwoIndexedOntology` (indexed.rs:264-268):
`let rtn = self.0.index_insert(ax.clone()); self.1.index_insert(ax) || rtn`
("Don't short circuit").  Events are concatenated in evaluation order. -/
def TwoIndexedOntology.index_insert (op1 : OntologyIndexOps A AA σ1)
    (op2 : OntologyIndexOps A AA σ2) (o : TwoIndexedOntology σ1 σ2 Ir) (ax : AA) :
    TwoIndexedOntology σ1 σ2 Ir × Bool × List Ev :=
  let rtn := op1.index_insert o.i ax
  let r2 := op2.index_insert o.j ax
  (⟨rtn.1, r2.1, o.oid, o.doc⟩, r2.2.1 || rtn.2.1, rtn.2.2 ++ r2.2.2)

/-- Embeds `OntologyIndex::index_remove` for `TwoIndexedOntology` (indexed.rs:270-274):
`let rtn = self.0.index_remove(ax); self.1.index_remove(ax) || rtn`. -/
def TwoIndexedOntology.index_remove (op1 : OntologyIndexOps A AA σ1)
    (op2 : OntologyIndexOps A AA σ2) (o : TwoIndexedOntology σ1 σ2 Ir) (ax : A) :
    TwoIndexedOntology σ1 σ2 Ir × Bool × List Ev :=
  let rtn := op1.index_remove o.i ax
  let r2 := op2.index_remove o.j ax
  (⟨rtn.1, r2.1, o.oid, o.doc⟩, r2.2.1 || rtn.2.1, rtn.2.2 ++ r2.2.2)

/-- The `OntologyIndex` impl of `TwoIndexedOntology` (indexed.rs:261-275) packaged
as index operations, so a two-composite can itself be used as a slot. -/
def TwoIndexedOntology.asOps (op1 : OntologyIndexOps A AA σ1)
    (op2 : OntologyIndexOps A AA σ2) :
    OntologyIndexOps A AA (TwoIndexedOntology σ1 σ2 Ir) where
  index_insert := TwoIndexedOntology.index_insert op1 op2
  index_remove := TwoIndexedOntology.index_remove op1 op2

/-- Embeds `MutableOntology::insert` for `TwoIndexedOntology` (indexed.rs:251-254):
one axiom-to-handle conversion (`Ev.conv`), then `self.index_insert`. -/
def TwoIndexedOntology.insert (toH : A → AA) (op1 : OntologyIndexOps A AA σ1)
    (op2 : OntologyIndexOps A AA σ2) (o : TwoIndexedOntology σ1 σ2 Ir) (ax : A) :
    TwoIndexedOntology σ1 σ2 Ir × Bool × List Ev :=
  let r := TwoIndexedOntology.index_insert op1 op2 o (toH ax)
  (r.1, r.2.1, Ev.conv :: r.2.2)

/-- Embeds `MutableOntology::take` for `TwoIndexedOntology` (indexed.rs:256-258):
`self.index_take(ax)`. -/
def TwoIndexedOntology.take (op1 : OntologyIndexOps A AA σ1)
    (op2 : OntologyIndexOps A AA σ2) (o : TwoIndexedOntology σ1 σ2 Ir) (ax : A) :
    TwoIndexedOntology σ1 σ2 Ir × Option A × List Ev :=
  (TwoIndexedOntology.asOps op1 op2).index_take o ax

/-- Modelled from the spec: `MutableOntology::remove` derived from `take`. -/
def TwoIndexedOntology.remove (op1 : OntologyIndexOps A AA σ1)
    (op2 : OntologyIndexOps A AA σ2) (o : TwoIndexedOntology σ1 σ2 Ir) (ax : A) :
    TwoIndexedOntology σ1 σ2 Ir × Bool × List Ev :=
  let r := TwoIndexedOntology.take op1 op2 o ax
  (r.1, r.2.1.isSome, r.2.2)

/-- Embeds `ThreeIndexedOntology` (indexed.rs:278-285): a newtype over
`TwoIndexedOntology<I, TwoIndexedOntology<J, K>>`. -/
structure ThreeIndexedOntology (σ1 σ2 σ3 Ir : Type) where
  inner : TwoIndexedOntology σ1 (TwoIndexedOntology σ2 σ3 Ir) Ir

/-- Embeds `ThreeIndexedOntology::new` (indexed.rs:295-309): the nested pair gets a
default-initialized identity record and document IRI. -/
def ThreeIndexedOntology.new (i : σ1) (j : σ2) (k : σ3) (id : OntologyID Ir) :
    ThreeIndexedOntology σ1 σ2 σ3 Ir :=
  ⟨⟨i, ⟨j, k, OntologyID.default, none⟩, id, none⟩⟩

/-- Embeds `ThreeIndexedOntology::i` (indexed.rs:311-313). -/
def ThreeIndexedOntology.i (o : ThreeIndexedOntology σ1 σ2 σ3 Ir) : σ1 := o.inner.i

/-- Embeds `ThreeIndexedOntology::j` (indexed.rs:315-317). -/
def ThreeIndexedOntology.j (o : ThreeIndexedOntology σ1 σ2 σ3 Ir) : σ2 := o.inner.j.i

/-- Embeds `ThreeIndexedOntology::k` (indexed.rs:319-321). -/
def ThreeIndexedOntology.k (o : ThreeIndexedOntology σ1 σ2 σ3 Ir) : σ3 := o.inner.j.j

/-- Embeds `ThreeIndexedOntology::index` (indexed.rs:323-327):
`let index = (self.0).1.index(); ((self.0).0, index.0, index.1)`. -/
def ThreeIndexedOntology.index (o : ThreeIndexedOntology σ1 σ2 σ3 Ir) : σ1 × σ2 × σ3 :=
  let index := o.inner.j.index
  (o.inner.i, index.1, index.2)

/-- Embeds `Ontology::id` for `ThreeIndexedOntology` (indexed.rs:337-339): `self.0.id()`. -/
def ThreeIndexedOntology.id (o : ThreeIndexedOntology σ1 σ2 σ3 Ir) : OntologyID Ir :=
  o.inner.id

/-- Embeds `Ontology::mut_id` for `ThreeIndexedOntology` (indexed.rs:341-343), as a
setter: `self.0.mut_id()` targets the outer pair's own identity field. -/
def ThreeIndexedOntology.set_id (o : ThreeIndexedOntology σ1 σ2 σ3 Ir)
    (v : OntologyID Ir) : ThreeIndexedOntology σ1 σ2 σ3 Ir :=
  ⟨o.inner.set_id v⟩

/-- Embeds `Ontology::doc_iri` for `ThreeIndexedOntology` (indexed.rs:345-347). -/
def ThreeIndexedOntology.doc_iri (o : ThreeIndexedOntology σ1 σ2 σ3 Ir) : Option Ir :=
  o.inner.doc_iri

/-- Embeds `Ontology::mut_doc_iri` for `ThreeIndexedOntology` (indexed.rs:349-351), as a setter. -/
def ThreeIndexedOntology.set_doc_iri (o : ThreeIndexedOntology σ1 σ2 σ3 Ir)
    (v : Option Ir) : ThreeIndexedOntology σ1 σ2 σ3 Ir :=
  ⟨o.inner.set_doc_iri v⟩

/-- Embeds `OntologyIndex::index_insert` for `ThreeIndexedOntology` (indexed.rs:379-383):
`let rtn = (self.0).0.index_insert(ax.clone()); (self.0).1.index_insert(ax) || rtn`. -/
def ThreeIndexedOntology.index_insert (op1 : OntologyIndexOps A AA σ1)
    (op2 : OntologyIndexOps A AA σ2) (op3 : OntologyIndexOps A AA σ3)
    (o : ThreeIndexedOntology σ1 σ2 σ3 Ir) (ax : AA) :
    ThreeIndexedOntology σ1 σ2 σ3 Ir × Bool × List Ev :=
  let rtn := op1.index_insert o.inner.i ax
  let r2 := (TwoIndexedOntology.asOps op2 op3).index_insert o.inner.j ax
  (⟨⟨rtn.1, r2.1, o.inner.oid, o.inner.doc⟩⟩, r2.2.1 || rtn.2.1, rtn.2.2 ++ r2.2.2)

/-- Embeds `OntologyIndex::index_remove` for `ThreeIndexedOntology` (indexed.rs:385-389)
exactly as written: `let rtn = self.0.index_remove(ax);` — note `self.0`, the WHOLE
inner pair, not `(self.0).0` — followed by `(self.0).1.index_remove(ax) || rtn` on the
then-current state. -/
def ThreeIndexedOntology.index_remove (op1 : OntologyIndexOps A AA σ1)
    (op2 : OntologyIndexOps A AA σ2) (op3 : OntologyIndexOps A AA σ3)
    (o : ThreeIndexedOntology σ1 σ2 σ3 Ir) (ax : A) :
    ThreeIndexedOntology σ1 σ2 σ3 Ir × Bool × List Ev :=
  let rtn := (TwoIndexedOntology.asOps op1 (TwoIndexedOntology.asOps op2 op3)).index_remove
    o.inner ax
  let r2 := (TwoIndexedOntology.asOps op2 op3).index_remove rtn.1.j ax
  (⟨⟨rtn.1.i, r2.1, rtn.1.oid, rtn.1.doc⟩⟩, r2.2.1 || rtn.2.1, rtn.2.2 ++ r2.2.2)

/-- The `OntologyIndex` impl of `ThreeIndexedOntology` (indexed.rs:371-390) packaged
as index operations, so a three-composite can itself be used as a slot. -/
def ThreeIndexedOntology.asOps (op1 : OntologyIndexOps A AA σ1)
    (op2 : OntologyIndexOps A AA σ2) (op3 : OntologyIndexOps A AA σ3) :
    OntologyIndexOps A AA (ThreeIndexedOntology σ1 σ2 σ3 Ir) where
  index_insert := ThreeIndexedOntology.index_insert op1 op2 op3
  index_remove := ThreeIndexedOntology.index_remove op1 op2 op3

/-- Embeds `MutableOntology::insert` for `ThreeIndexedOntology` (indexed.rs:362-364):
`self.0.insert(ax)`, i.e. the two-composite insert with the nested pair as second slot. -/
def ThreeIndexedOntology.insert (toH : A → AA) (op1 : OntologyIndexOps A AA σ1)
    (op2 : OntologyIndexOps A AA σ2) (op3 : OntologyIndexOps A AA σ3)
    (o : ThreeIndexedOntology σ1 σ2 σ3 Ir) (ax : A) :
    ThreeIndexedOntology σ1 σ2 σ3 Ir × Bool × List Ev :=
  let r := TwoIndexedOntology.insert toH op1 (TwoIndexedOntology.asOps op2 op3) o.inner ax
  (⟨r.1⟩, r.2.1, r.2.2)

/-- Embeds `MutableOntology::take` for `ThreeIndexedOntology` (indexed.rs:366-368):
`self.0.take(ax)`. -/
def ThreeIndexedOntology.take (op1 : OntologyIndexOps A AA σ1)
    (op2 : OntologyIndexOps A AA σ2) (op3 : OntologyIndexOps A AA σ3)
    (o : ThreeIndexedOntology σ1 σ2 σ3 Ir) (ax : A) :
    ThreeIndexedOntology σ1 σ2 σ3 Ir × Option A × List Ev :=
  let r := TwoIndexedOntology.take op1 (TwoIndexedOntology.asOps op2 op3) o.inner ax
  (⟨r.1⟩, r.2.1, r.2.2)

/-- Modelled from the spec: `MutableOntology::remove` derived from `take`. -/
def ThreeIndexedOntology.remove (op1 : OntologyIndexOps A AA σ1)
    (op2 : OntologyIndexOps A AA σ2) (op3 : OntologyIndexOps A AA σ3)
    (o : ThreeIndexedOntology σ1 σ2 σ3 Ir) (ax : A) :
    ThreeIndexedOntology σ1 σ2 σ3 Ir × Bool × List Ev :=
  let r := ThreeIndexedOntology.take op1 op2 op3 o ax
  (r.1, r.2.1.isSome, r.2.2)

/-- Embeds `FourIndexedOntology` (indexed.rs:394-401): a newtype over
`TwoIndexedOntology<I, ThreeIndexedOntology<J, K, L>>`. -/
structure FourIndexedOntology (σ1 σ2 σ3 σ4 Ir : Type) where
  inner : TwoIndexedOntology σ1 (ThreeIndexedOntology σ2 σ3 σ4 Ir) Ir

/-- Embeds `FourIndexedOntology::new` (indexed.rs:412-420): the nested
three-composite gets a default-initialized identity record. -/
def FourIndexedOntology.new (i : σ1) (j : σ2) (k : σ3) (l : σ4) (id : OntologyID Ir) :
    FourIndexedOntology σ1 σ2 σ3 σ4 Ir :=
  ⟨⟨i, ThreeIndexedOntology.new j k l OntologyID.default, id, none⟩⟩

/-- Embeds `FourIndexedOntology::i` (indexed.rs:422-424). -/
def FourIndexedOntology.i (o : FourIndexedOntology σ1 σ2 σ3 σ4 Ir) : σ1 := o.inner.i

/-- Embeds `FourIndexedOntology::j` (indexed.rs:426-428). -/
def FourIndexedOntology.j (o : FourIndexedOntology σ1 σ2 σ3 σ4 Ir) : σ2 :=
  o.inner.j.i

/-- Embeds `FourIndexedOntology::k` (indexed.rs:430-432). -/
def FourIndexedOntology.k (o : FourIndexedOntology σ1 σ2 σ3 σ4 Ir) : σ3 :=
  o.inner.j.j

/-- Embeds `FourIndexedOntology::l` (indexed.rs:434-436). -/
def FourIndexedOntology.l (o : FourIndexedOntology σ1 σ2 σ3 σ4 Ir) : σ4 :=
  o.inner.j.k

/-- Embeds `FourIndexedOntology::index` (indexed.rs:438-441):
`let index = (self.0).1.index(); ((self.0).0, index.0, index.1, index.2)`. -/
def FourIndexedOntology.index (o : FourIndexedOntology σ1 σ2 σ3 σ4 Ir) :
    σ1 × σ2 × σ3 × σ4 :=
  let index := o.inner.j.index
  (o.inner.i, index.1, index.2.1, index.2.2)

/-- Embeds `Ontology::id` for `FourIndexedOntology` (indexed.rs:453-455). -/
def FourIndexedOntology.id (o : FourIndexedOntology σ1 σ2 σ3 σ4 Ir) : OntologyID Ir :=
  o.inner.id

/-- Embeds `Ontology::mut_id` for `FourIndexedOntology` (indexed.rs:457-459), as a setter. -/
def FourIndexedOntology.set_id (o : FourIndexedOntology σ1 σ2 σ3 σ4 Ir)
    (v : OntologyID Ir) : FourIndexedOntology σ1 σ2 σ3 σ4 Ir :=
  ⟨o.inner.set_id v⟩

/-- Embeds `Ontology::doc_iri` for `FourIndexedOntology` (indexed.rs:461-463). -/
def FourIndexedOntology.doc_iri (o : FourIndexedOntology σ1 σ2 σ3 σ4 Ir) : Option Ir :=
  o.inner.doc_iri

/-- Embeds `Ontology::mut_doc_iri` for `FourIndexedOntology` (indexed.rs:465-467), as a setter. -/
def FourIndexedOntology.set_doc_iri (o : FourIndexedOntology σ1 σ2 σ3 σ4 Ir)
    (v : Option Ir) : FourIndexedOntology σ1 σ2 σ3 σ4 Ir :=
  ⟨o.inner.set_doc_iri v⟩

/-- Embeds `MutableOntology::insert` for `FourIndexedOntology` (indexed.rs:479-481):
`self.0.insert(ax)` with the nested three-composite as second slot (the
three-composite participates through its own `OntologyIndex` impl). -/
def FourIndexedOntology.insert (toH : A → AA) (op1 : OntologyIndexOps A AA σ1)
    (op2 : OntologyIndexOps A AA σ2) (op3 : OntologyIndexOps A AA σ3)
    (op4 : OntologyIndexOps A AA σ4)
    (o : FourIndexedOntology σ1 σ2 σ3 σ4 Ir) (ax : A) :
    FourIndexedOntology σ1 σ2 σ3 σ4 Ir × Bool × List Ev :=
  let r := TwoIndexedOntology.insert toH op1 (ThreeIndexedOntology.asOps op2 op3 op4)
    o.inner ax
  (⟨r.1⟩, r.2.1, r.2.2)

/-- Embeds `MutableOntology::take` for `FourIndexedOntology` (indexed.rs:483-485):
`self.0.take(ax)`. -/
def FourIndexedOntology.take (op1 : OntologyIndexOps A AA σ1)
    (op2 : OntologyIndexOps A AA σ2) (op3 : OntologyIndexOps A AA σ3)
    (op4 : OntologyIndexOps A AA σ4)
    (o : FourIndexedOntology σ1 σ2 σ3 σ4 Ir) (ax : A) :
    FourIndexedOntology σ1 σ2 σ3 σ4 Ir × Option A × List Ev :=
  let r := TwoIndexedOntology.take op1 (ThreeIndexedOntology.asOps op2 op3 op4)
    o.inner ax
  (⟨r.1⟩, r.2.1, r.2.2)

/-- Modelled from the spec: `MutableOntology::remove` derived from `take`. -/
def FourIndexedOntology.remove (op1 : OntologyIndexOps A AA σ1)
    (op2 : OntologyIndexOps A AA σ2) (op3 : OntologyIndexOps A AA σ3)
    (op4 : OntologyIndexOps A AA σ4)
    (o : FourIndexedOntology σ1 σ2 σ3 σ4 Ir) (ax : A) :
    FourIndexedOntology σ1 σ2 σ3 σ4 Ir × Bool × List Ev :=
  let r := FourIndexedOntology.take op1 op2 op3 op4 o ax
  (r.1, r.2.1.isSome, r.2.2)

end Indexed

section Handle

variable {A AA : Type}

/-- Embeds the `ForIndex` capability (indexed.rs:29-56): the trait bounds of any
axiom-handle type `AA` (`Borrow<AnnotatedAxiom<A>> + Clone + Debug + Eq + From +
Hash + Ord`), together with the contracts those std traits and the spec attach to
them: `Clone` produces an equal value (pure-value semantics), the `From` conversion
is lossless (spec: "must convert losslessly from an Axiom"), and `Borrow` requires
equality, ordering and hashing of the handle to agree with those of the borrowed
axiom.  `Debug` has no observable semantics here.  All operations are total
functions: none of them can fail. -/
structure ForIndexCap (A AA : Type) where
  borrow : AA → A
  fromAx : A → AA
  cloneH : AA → AA
  cloneAx : A → A
  beqH : AA → AA → Bool
  beqAx : A → A → Bool
  cmpH : AA → AA → Ordering
  cmpAx : A → A → Ordering
  hashH : AA → Nat
  hashAx : A → Nat
  cloneH_eq : ∀ x, cloneH x = x
  cloneAx_eq : ∀ a, cloneAx a = a
  borrow_from : ∀ a, borrow (fromAx a) = a
  beq_borrow : ∀ x y, beqH x y = beqAx (borrow x) (borrow y)
  cmp_borrow : ∀ x y, cmpH x y = cmpAx (borrow x) (borrow y)
  hash_borrow : ∀ x, hashH x = hashAx (borrow x)

/-- Embeds the provided method `ForIndex::unwrap` (indexed.rs:40-42):
`(*self.borrow()).clone()`. -/
def ForIndexCap.unwrap (c : ForIndexCap A AA) (x : AA) : A := c.cloneAx (c.borrow x)

/-- The `Rc<AnnotatedAxiom>` / `Arc<AnnotatedAxiom>` instantiation of the handle
capability, with the axiom type `Nat` standing for any concrete axiom type: in the
pure semantics a reference-counted pointer is the value it holds, so every
operation is the corresponding operation on the underlying value.  Shows the
capability is inhabited. -/
def rcForIndexCap : ForIndexCap Nat Nat where
  borrow := fun x => x
  fromAx := fun a => a
  cloneH := fun x => x
  cloneAx := fun a => a
  beqH := fun x y => x == y
  beqAx := fun x y => x == y
  cmpH := compare
  cmpAx := compare
  hashH := fun x => x
  hashAx := fun x => x
  cloneH_eq := fun _ => rfl
  cloneAx_eq := fun _ => rfl
  borrow_from := fun _ => rfl
  beq_borrow := fun _ _ => rfl
  cmp_borrow := fun _ _ => rfl
  hash_borrow := fun _ => rfl

end Handle

section Vocab

/-- UTF-8 bytes of an ASCII string literal (for ASCII, the code point is the byte). -/
def ascii (s : String) : List Nat := s.toList.map Char.toNat

/-- Embeds Rust `str::is_char_boundary` on the byte list `s` at index `i`: true at
0 and at the length, and otherwise exactly when the byte at `i` exists and is not a
UTF-8 continuation byte. -/
def is_char_boundary (s : List Nat) (i : Nat) : Bool :=
  i == 0 || i == s.length ||
    (decide (i < s.length) && (s.getD i 0 < 0x80 || 0xC0 ≤ s.getD i 0))

/-- Whether `b` is a UTF-8 continuation byte (0x80..=0xBF). -/
def utf8Cont (b : Nat) : Bool := 0x80 ≤ b && b ≤ 0xBF

/-- RFC 3629 validity of a byte list as UTF-8 (the invariant every Rust `&str`
satisfies), used to show that the aborting inputs below are reachable from real
Rust strings. -/
def utf8Valid : List Nat → Bool
  | [] => true
  | b :: r =>
    if b < 0x80 then utf8Valid r
    else match r with
    | [] => false
    | b1 :: r1 =>
      if 0xC2 ≤ b && b ≤ 0xDF then utf8Cont b1 && utf8Valid r1
      else match r1 with
      | [] => false
      | b2 :: r2 =>
        if b == 0xE0 then (0xA0 ≤ b1 && b1 ≤ 0xBF) && utf8Cont b2 && utf8Valid r2
        else if (0xE1 ≤ b && b ≤ 0xEC) || b == 0xEE || b == 0xEF then
          utf8Cont b1 && utf8Cont b2 && utf8Valid r2
        else if b == 0xED then (0x80 ≤ b1 && b1 ≤ 0x9F) && utf8Cont b2 && utf8Valid r2
        else match r2 with
        | [] => false
        | b3 :: r3 =>
          if b == 0xF0 then
            (0x90 ≤ b1 && b1 ≤ 0xBF) && utf8Cont b2 && utf8Cont b3 && utf8Valid r3
          else if 0xF1 ≤ b && b ≤ 0xF3 then
            utf8Cont b1 && utf8Cont b2 && utf8Cont b3 && utf8Valid r3
          else if b == 0xF4 then
            (0x80 ≤ b1 && b1 ≤ 0x8F) && utf8Cont b2 && utf8Cont b3 && utf8Valid r3
          else false

/-- Embeds `NamedEntity` construction results (vocab.rs / the model module): which
constructor of the entity was built, holding the entity IRI it was built from.
`owlClass` stands for `b.class(..)`, `annProperty` for `b.annotation_property(..)`. -/
inductive NamedEntity where
  | owlClass : List Nat → NamedEntity
  | objectProperty : List Nat → NamedEntity
  | dataProperty : List Nat → NamedEntity
  | annProperty : List Nat → NamedEntity
  | namedIndividual : List Nat → NamedEntity
  | datatype : List Nat → NamedEntity
deriving DecidableEq

/-- Embeds `entity_for_iri` (vocab.rs:158-178).  Result `none` models the Rust
panic raised by `&type_iri[30..]` when byte offset 30 of `type_iri` is not a
character boundary; `some (Except.error msg)` models `bail!` with the formatted
message bytes; `some (Except.ok e)` models `Ok` of the constructed entity. -/
def entity_for_iri (type_iri entity_iri : List Nat) :
    Option (Except (List Nat) NamedEntity) :=
  if type_iri = ascii "http://www.w3.org/2000/01/rdf-schema#Datatype" then
    some (Except.ok (NamedEntity.datatype entity_iri))
  else if type_iri.length < 30 then
    some (Except.error (ascii "IRI is not for a type of entity:" ++ type_iri))
  else if is_char_boundary type_iri 30 then
    let suffix := type_iri.drop 30
    if suffix = ascii "Class" then some (Except.ok (NamedEntity.owlClass entity_iri))
    else if suffix = ascii "ObjectProperty" then
      some (Except.ok (NamedEntity.objectProperty entity_iri))
    else if suffix = ascii "DatatypeProperty" then
      some (Except.ok (NamedEntity.dataProperty entity_iri))
    else if suffix = ascii "AnnotationProperty" then
      some (Except.ok (NamedEntity.annProperty entity_iri))
    else if suffix = ascii "NamedIndividual" then
      some (Except.ok (NamedEntity.namedIndividual entity_iri))
    else some (Except.error (ascii "IRI is not a type of entity:" ++ type_iri))
  else none

/-- The recognized-type predicate the spec describes: the RDF-schema Datatype IRI,
or a type IRI long enough to be split at byte 30 whose suffix is one of the five
recognized entity-type suffixes. -/
def recognizedTypeIri (t : List Nat) : Bool :=
  t == ascii "http://www.w3.org/2000/01/rdf-schema#Datatype" ||
    (decide (30 ≤ t.length) &&
      (t.drop 30 == ascii "Class" || t.drop 30 == ascii "ObjectProperty" ||
        t.drop 30 == ascii "DatatypeProperty" || t.drop 30 == ascii "AnnotationProperty" ||
        t.drop 30 == ascii "NamedIndividual"))

/-- The type IRI of the first positive scenario: ends in `owl#Class`. -/
def owlClassIri : List Nat := ascii "http://www.w3.org/2002/07/owl#Class"

/-- The unrecognized-suffix type IRI of the negative scenario: ends in `owl#Fred`. -/
def owlFredIri : List Nat := ascii "http://www.w3.org/2002/07/owl#Fred"

/-- A valid entity IRI used by the scenarios. -/
def exampleIri : List Nat := ascii "http://www.example.com"

/-- A well-formed (valid UTF-8) type IRI whose byte 30 is a UTF-8 continuation
byte: 29 ASCII bytes followed by the two-byte character é (0xC3 0xA9), i.e. the
string "http://www.w3.org/2002/07/owlé".  Byte offset 30 falls inside the é. -/
def badTypeIri : List Nat := ascii "http://www.w3.org/2002/07/owl" ++ [0xC3, 0xA9]

end Vocab

section Claims

/-- C8: for every composite of arity 1-4, in any state, decomposing via `index()`
yields exactly the contained index instances in original slot order (recursively
unwrapping the nested pairs), and this tuple equals the values observable through
the accessors `i()`, `j()`, `k()`, `l()` immediately before decomposition. -/
theorem index_decomposition_matches_accessors :
    ∀ {σ σ1 σ2 σ3 σ4 Ir : Type}
      (o1 : OneIndexedOntology σ Ir) (o2 : TwoIndexedOntology σ1 σ2 Ir)
      (o3 : ThreeIndexedOntology σ1 σ2 σ3 Ir)
      (o4 : FourIndexedOntology σ1 σ2 σ3 σ4 Ir),
      o1.index = o1.i ∧
      o2.index = (o2.i, o2.j) ∧
      o3.index = (o3.i, o3.j, o3.k) ∧
      o4.index = (o4.i, o4.j, o4.k, o4.l) := by
  intros
  exact ⟨rfl, rfl, rfl, rfl⟩

/-- C10: for every composite of arity 1-4 and arbitrary slot implementations,
insert, take and remove leave the identity record and the document IRI unchanged;
conversely, writing the identifier or the document IRI through the accessors leaves
every index slot's state (the decomposition tuple) unchanged.  Reads are pure
functions and change nothing by construction. -/
theorem mutation_preserves_identity_and_identity_preserves_slots :
    ∀ {A AA σ σ1 σ2 σ3 σ4 Ir : Type} (toH : A → AA)
      (op : OntologyIndexOps A AA σ) (op1 : OntologyIndexOps A AA σ1)
      (op2 : OntologyIndexOps A AA σ2) (op3 : OntologyIndexOps A AA σ3)
      (op4 : OntologyIndexOps A AA σ4)
      (o1 : OneIndexedOntology σ Ir) (o2 : TwoIndexedOntology σ1 σ2 Ir)
      (o3 : ThreeIndexedOntology σ1 σ2 σ3 Ir)
      (o4 : FourIndexedOntology σ1 σ2 σ3 σ4 Ir)
      (ax : A) (v : OntologyID Ir) (d : Option Ir),
      ((OneIndexedOntology.insert toH op o1 ax).1.id = o1.id ∧
        (OneIndexedOntology.insert toH op o1 ax).1.doc_iri = o1.doc_iri ∧
        (OneIndexedOntology.take op o1 ax).1.id = o1.id ∧
        (OneIndexedOntology.take op o1 ax).1.doc_iri = o1.doc_iri ∧
        (OneIndexedOntology.remove op o1 ax).1.id = o1.id ∧
        (OneIndexedOntology.remove op o1 ax).1.doc_iri = o1.doc_iri ∧
        (o1.set_id v).index = o1.index ∧ (o1.set_doc_iri d).index = o1.index) ∧
      ((TwoIndexedOntology.insert toH op1 op2 o2 ax).1.id = o2.id ∧
        (TwoIndexedOntology.insert toH op1 op2 o2 ax).1.doc_iri = o2.doc_iri ∧
        (TwoIndexedOntology.take op1 op2 o2 ax).1.id = o2.id ∧
        (TwoIndexedOntology.take op1 op2 o2 ax).1.doc_iri = o2.doc_iri ∧
        (TwoIndexedOntology.remove op1 op2 o2 ax).1.id = o2.id ∧
        (TwoIndexedOntology.remove op1 op2 o2 ax).1.doc_iri = o2.doc_iri ∧
        (o2.set_id v).index = o2.index ∧ (o2.set_doc_iri d).index = o2.index) ∧
      ((ThreeIndexedOntology.insert toH op1 op2 op3 o3 ax).1.id = o3.id ∧
        (ThreeIndexedOntology.insert toH op1 op2 op3 o3 ax).1.doc_iri = o3.doc_iri ∧
        (ThreeIndexedOntology.take op1 op2 op3 o3 ax).1.id = o3.id ∧
        (ThreeIndexedOntology.take op1 op2 op3 o3 ax).1.doc_iri = o3.doc_iri ∧
        (ThreeIndexedOntology.remove op1 op2 op3 o3 ax).1.id = o3.id ∧
        (ThreeIndexedOntology.remove op1 op2 op3 o3 ax).1.doc_iri = o3.doc_iri ∧
        (o3.set_id v).index = o3.index ∧ (o3.set_doc_iri d).index = o3.index) ∧
      ((FourIndexedOntology.insert toH op1 op2 op3 op4 o4 ax).1.id = o4.id ∧
        (FourIndexedOntology.insert toH op1 op2 op3 op4 o4 ax).1.doc_iri = o4.doc_iri ∧
        (FourIndexedOntology.take op1 op2 op3 op4 o4 ax).1.id = o4.id ∧
        (FourIndexedOntology.take op1 op2 op3 op4 o4 ax).1.doc_iri = o4.doc_iri ∧
        (FourIndexedOntology.remove op1 op2 op3 op4 o4 ax).1.id = o4.id ∧
        (FourIndexedOntology.remove op1 op2 op3 op4 o4 ax).1.doc_iri = o4.doc_iri ∧
        (o4.set_id v).index = o4.index ∧ (o4.set_doc_iri d).index = o4.index) := by
  intros
  exact ⟨⟨rfl, rfl, rfl, rfl, rfl, rfl, rfl, rfl⟩, ⟨rfl, rfl, rfl, rfl, rfl, rfl, rfl, rfl⟩,
    ⟨rfl, rfl, rfl, rfl, rfl, rfl, rfl, rfl⟩, ⟨rfl, rfl, rfl, rfl, rfl, rfl, rfl, rfl⟩⟩

/-- C7: for `ThreeIndexedOntology` and `FourIndexedOntology` constructed with
identity record `id`: `id()` returns `id`; the identity getters read, and the
identity setters write, only the outermost wrapping pair's own identity fields;
the identity fields of the nested inner composites are default-initialized at
construction and are untouched by the setters. -/
theorem identity_delegates_to_outermost :
    ∀ {σ1 σ2 σ3 σ4 Ir : Type} (i : σ1) (j : σ2) (k : σ3) (l : σ4)
      (id : OntologyID Ir) (o3 : ThreeIndexedOntology σ1 σ2 σ3 Ir)
      (o4 : FourIndexedOntology σ1 σ2 σ3 σ4 Ir) (v : OntologyID Ir) (d : Option Ir),
      ((ThreeIndexedOntology.new i j k id).id = id ∧
        (ThreeIndexedOntology.new i j k id).doc_iri = none ∧
        (ThreeIndexedOntology.new i j k id).inner.j.oid = OntologyID.default ∧
        (ThreeIndexedOntology.new i j k id).inner.j.doc = none ∧
        o3.id = o3.inner.oid ∧ o3.doc_iri = o3.inner.doc ∧
        o3.set_id v = ⟨⟨o3.inner.i, o3.inner.j, v, o3.inner.doc⟩⟩ ∧
        o3.set_doc_iri d = ⟨⟨o3.inner.i, o3.inner.j, o3.inner.oid, d⟩⟩) ∧
      ((FourIndexedOntology.new i j k l id).id = id ∧
        (FourIndexedOntology.new i j k l id).doc_iri = none ∧
        (FourIndexedOntology.new i j k l id).inner.j.inner.oid = OntologyID.default ∧
        (FourIndexedOntology.new i j k l id).inner.j.inner.doc = none ∧
        (FourIndexedOntology.new i j k l id).inner.j.inner.j.oid = OntologyID.default ∧
        (FourIndexedOntology.new i j k l id).inner.j.inner.j.doc = none ∧
        o4.id = o4.inner.oid ∧ o4.doc_iri = o4.inner.doc ∧
        o4.set_id v = ⟨⟨o4.inner.i, o4.inner.j, v, o4.inner.doc⟩⟩ ∧
        o4.set_doc_iri d = ⟨⟨o4.inner.i, o4.inner.j, o4.inner.oid, d⟩⟩) := by
  intros
  exact ⟨⟨rfl, rfl, rfl, rfl, rfl, rfl, rfl, rfl⟩,
    ⟨rfl, rfl, rfl, rfl, rfl, rfl, rfl, rfl, rfl, rfl⟩⟩

/-- C4: for every index implementation (and hence every composite, whose
`OntologyIndex` impls and `take` methods all go through the same provided
`index_take`), `take(ax)` returns `some ax` — the supplied axiom itself, never a
slot-sourced value — exactly when `index_remove` on the same state returns true,
returns `none` exactly when it returns false, and leaves the same state as the
remove does.  The last two conjuncts restate this for the `MutableOntology`-level
`take`/`remove` of a one-composite. -/
theorem take_is_remove_with_supplied_value :
    ∀ {A AA σ Ir : Type} (op : OntologyIndexOps A AA σ) (s : σ) (ax : A)
      (o1 : OneIndexedOntology σ Ir),
      ((op.index_take s ax).2.1 = some ax ↔ (op.index_remove s ax).2.1 = true) ∧
      ((op.index_take s ax).2.1 = none ↔ (op.index_remove s ax).2.1 = false) ∧
      (op.index_take s ax).1 = (op.index_remove s ax).1 ∧
      ((OneIndexedOntology.take op o1 ax).2.1 = some ax ↔
        (OneIndexedOntology.remove op o1 ax).2.1 = true) ∧
      ((OneIndexedOntology.take op o1 ax).2.1 = none ↔
        (OneIndexedOntology.remove op o1 ax).2.1 = false) := by
  intro A AA σ Ir op s ax o1
  cases h : (op.index_remove s ax).2.1 <;>
    simp [OntologyIndexOps.index_take, OneIndexedOntology.take,
      OneIndexedOntology.remove, h]

/-- C9: any handle type satisfying the `ForIndex` capability is a transparent
wrapper: converting an axiom to a handle and projecting it back with the provided
`unwrap` yields the original axiom, and handle equality, ordering and hashing
coincide with those of the underlying axiom obtained by `unwrap`; cloning is the
identity.  All capability operations are total functions, so none can fail. -/
theorem forindex_handle_is_transparent :
    ∀ {A AA : Type} (c : ForIndexCap A AA) (ax : A) (x y : AA),
      c.unwrap (c.fromAx ax) = ax ∧
      c.beqH x y = c.beqAx (c.unwrap x) (c.unwrap y) ∧
      c.cmpH x y = c.cmpAx (c.unwrap x) (c.unwrap y) ∧
      c.hashH x = c.hashAx (c.unwrap x) ∧
      c.cloneH x = x := by
  intro A AA c ax x y
  simp [ForIndexCap.unwrap, c.cloneAx_eq, c.borrow_from, c.beq_borrow,
    c.cmp_borrow, c.hash_borrow, c.cloneH_eq]

/-- C2 (divergence demonstration): with every slot instrumented to log calls, a
single direct `index_remove` on a three-composite invokes the second and third
slots twice (events `[rem 1, rem 2, rem 3, rem 2, rem 3]`), because
`ThreeIndexedOntology::index_remove` first removes from the WHOLE inner pair
(`self.0`) and then from the inner pair again (`(self.0).1`); consequently one
`take` on a four-composite invokes its third and fourth slots twice. -/
theorem three_and_four_remove_call_nested_slots_twice :
    (ThreeIndexedOntology.index_remove
        ((NullIndex : PlainOps Nat Nat Unit).counted 1)
        ((NullIndex : PlainOps Nat Nat Unit).counted 2)
        ((NullIndex : PlainOps Nat Nat Unit).counted 3)
        (ThreeIndexedOntology.new () () () (OntologyID.default : OntologyID Nat))
        0).2.2 =
      [Ev.rem 1, Ev.rem 2, Ev.rem 3, Ev.rem 2, Ev.rem 3] ∧
    (FourIndexedOntology.take
        ((NullIndex : PlainOps Nat Nat Unit).counted 1)
        ((NullIndex : PlainOps Nat Nat Unit).counted 2)
        ((NullIndex : PlainOps Nat Nat Unit).counted 3)
        ((NullIndex : PlainOps Nat Nat Unit).counted 4)
        (FourIndexedOntology.new () () () () (OntologyID.default : OntologyID Nat))
        0).2.2 =
      [Ev.rem 1, Ev.rem 2, Ev.rem 3, Ev.rem 4, Ev.rem 3, Ev.rem 4] :=
  ⟨rfl, rfl⟩

/-- C6 (divergence demonstration): `badTypeIri` is a well-formed UTF-8 string of
31 bytes (29 ASCII bytes then the two-byte character é) whose byte offset 30 is
not a character boundary; on it `entity_for_iri` neither succeeds nor returns the
"unrecognized entity type" error but aborts (the Rust byte-slice
`&type_iri[30..]` panics), modelled as the result `none`. -/
theorem entity_for_iri_aborts_inside_multibyte_char :
    utf8Valid badTypeIri = true ∧ 30 ≤ badTypeIri.length ∧
      is_char_boundary badTypeIri 30 = false ∧
      entity_for_iri badTypeIri exampleIri = none :=
  ⟨rfl, by decide, rfl, rfl⟩

end Claims

/-- C1: for every composite of arity 2-4, any slot implementations and any state,
`insert` performs exactly one axiom-to-handle conversion (the single `Ev.conv`),
invokes `index_insert` once on every slot in left-to-right slot order — the event
log is exactly `[conv, ins 1, ins 2, ...]` whatever the slots return, so no result
short-circuits anything — updates each slot state by exactly one application of
its own insert on the shared handle, and returns the logical OR of all slot
results. -/
theorem insert_converts_once_visits_slots_in_order_and_ors :
    ∀ {A AA σ1 σ2 σ3 σ4 Ir : Type} (toH : A → AA)
      (p1 : PlainOps A AA σ1) (p2 : PlainOps A AA σ2) (p3 : PlainOps A AA σ3)
      (p4 : PlainOps A AA σ4) (t1 t2 t3 t4 : Nat)
      (o2 : TwoIndexedOntology σ1 σ2 Ir)
      (o3 : ThreeIndexedOntology σ1 σ2 σ3 Ir)
      (o4 : FourIndexedOntology σ1 σ2 σ3 σ4 Ir) (ax : A),
      TwoIndexedOntology.insert toH (p1.counted t1) (p2.counted t2) o2 ax =
        (⟨(p1.ins o2.i (toH ax)).1, (p2.ins o2.j (toH ax)).1, o2.oid, o2.doc⟩,
          ((p1.ins o2.i (toH ax)).2 || (p2.ins o2.j (toH ax)).2),
          [Ev.conv, Ev.ins t1, Ev.ins t2]) ∧
      ThreeIndexedOntology.insert toH (p1.counted t1) (p2.counted t2) (p3.counted t3)
          o3 ax =
        (⟨⟨(p1.ins o3.inner.i (toH ax)).1,
            ⟨(p2.ins o3.inner.j.i (toH ax)).1, (p3.ins o3.inner.j.j (toH ax)).1,
              o3.inner.j.oid, o3.inner.j.doc⟩,
            o3.inner.oid, o3.inner.doc⟩⟩,
          ((p1.ins o3.inner.i (toH ax)).2 ||
            ((p2.ins o3.inner.j.i (toH ax)).2 || (p3.ins o3.inner.j.j (toH ax)).2)),
          [Ev.conv, Ev.ins t1, Ev.ins t2, Ev.ins t3]) ∧
      FourIndexedOntology.insert toH (p1.counted t1) (p2.counted t2) (p3.counted t3)
          (p4.counted t4) o4 ax =
        (⟨⟨(p1.ins o4.inner.i (toH ax)).1,
            ⟨⟨(p2.ins o4.inner.j.inner.i (toH ax)).1,
              ⟨(p3.ins o4.inner.j.inner.j.i (toH ax)).1,
                (p4.ins o4.inner.j.inner.j.j (toH ax)).1,
                o4.inner.j.inner.j.oid, o4.inner.j.inner.j.doc⟩,
              o4.inner.j.inner.oid, o4.inner.j.inner.doc⟩⟩,
            o4.inner.oid, o4.inner.doc⟩⟩,
          ((p1.ins o4.inner.i (toH ax)).2 ||
            ((p2.ins o4.inner.j.inner.i (toH ax)).2 ||
              ((p3.ins o4.inner.j.inner.j.i (toH ax)).2 ||
                (p4.ins o4.inner.j.inner.j.j (toH ax)).2))),
          [Ev.conv, Ev.ins t1, Ev.ins t2, Ev.ins t3, Ev.ins t4]) := by
  intro A AA σ1 σ2 σ3 σ4 Ir toH p1 p2 p3 p4 t1 t2 t3 t4 o2 o3 o4 ax
  refine ⟨?_, ?_, ?_⟩ <;>
    simp [TwoIndexedOntology.insert, TwoIndexedOntology.index_insert,
      ThreeIndexedOntology.insert, ThreeIndexedOntology.index_insert,
      FourIndexedOntology.insert, TwoIndexedOntology.asOps,
      ThreeIndexedOntology.asOps, PlainOps.counted,
      Bool.or_comm, Bool.or_left_comm, Bool.or_assoc]

/-- The state type of a slot of either kind: `true` is the durable set index,
`false` is the null index. -/
def SlotSt (A : Type) : Bool → Type
  | true => List A
  | false => Unit

/-- The freshly constructed state of a slot of kind `b` (empty set, unit). -/
def freshSlot (A : Type) : (b : Bool) → SlotSt A b
  | true => ([] : List A)
  | false => ()

/-- The operations of a slot of kind `b`: the set index or the null index. -/
def slotOps (A : Type) [DecidableEq A] : (b : Bool) → PlainOps A A (SlotSt A b)
  | true => SetIndex
  | false => NullIndex

/-- A freshly constructed one-composite over a slot of kind `b1`. -/
def freshOne (A : Type) (b1 : Bool) : OneIndexedOntology (SlotSt A b1) Unit :=
  OneIndexedOntology.new (freshSlot A b1)

/-- A freshly constructed two-composite over slots of kinds `b1`, `b2`. -/
def freshTwo (A : Type) (b1 b2 : Bool) :
    TwoIndexedOntology (SlotSt A b1) (SlotSt A b2) Unit :=
  TwoIndexedOntology.new (freshSlot A b1) (freshSlot A b2) OntologyID.default

/-- A freshly constructed three-composite over slots of kinds `b1`, `b2`, `b3`. -/
def freshThree (A : Type) (b1 b2 b3 : Bool) :
    ThreeIndexedOntology (SlotSt A b1) (SlotSt A b2) (SlotSt A b3) Unit :=
  ThreeIndexedOntology.new (freshSlot A b1) (freshSlot A b2) (freshSlot A b3)
    OntologyID.default

/-- A freshly constructed four-composite over slots of kinds `b1`..`b4`. -/
def freshFour (A : Type) (b1 b2 b3 b4 : Bool) :
    FourIndexedOntology (SlotSt A b1) (SlotSt A b2) (SlotSt A b3) (SlotSt A b4) Unit :=
  FourIndexedOntology.new (freshSlot A b1) (freshSlot A b2) (freshSlot A b3)
    (freshSlot A b4) OntologyID.default

/-- C3 (amended): for every composite of arity 1-4 whose slots are durable set
indices or null indices with at least one set slot, and every axiom: starting from
the freshly constructed composite, inserting the same logical axiom twice in a row
returns true on the first insert and false on the second, and removing the (absent)
axiom from the fresh composite returns false. -/
theorem fresh_insert_twice_true_then_false_and_remove_absent_false :
    ∀ {A : Type} [_inst : DecidableEq A] (ax : A) (b1 b2 b3 b4 : Bool),
      (b1 = true →
        (OneIndexedOntology.insert (fun a => a) ((slotOps A b1).silent)
            (freshOne A b1) ax).2.1 = true ∧
        (OneIndexedOntology.insert (fun a => a) ((slotOps A b1).silent)
            (OneIndexedOntology.insert (fun a => a) ((slotOps A b1).silent)
              (freshOne A b1) ax).1 ax).2.1 = false ∧
        (OneIndexedOntology.remove ((slotOps A b1).silent) (freshOne A b1) ax).2.1 =
          false) ∧
      ((b1 || b2) = true →
        (TwoIndexedOntology.insert (fun a => a) ((slotOps A b1).silent)
            ((slotOps A b2).silent) (freshTwo A b1 b2) ax).2.1 = true ∧
        (TwoIndexedOntology.insert (fun a => a) ((slotOps A b1).silent)
            ((slotOps A b2).silent)
            (TwoIndexedOntology.insert (fun a => a) ((slotOps A b1).silent)
              ((slotOps A b2).silent) (freshTwo A b1 b2) ax).1 ax).2.1 = false ∧
        (TwoIndexedOntology.remove ((slotOps A b1).silent) ((slotOps A b2).silent)
            (freshTwo A b1 b2) ax).2.1 = false) ∧
      ((b1 || b2 || b3) = true →
        (ThreeIndexedOntology.insert (fun a => a) ((slotOps A b1).silent)
            ((slotOps A b2).silent) ((slotOps A b3).silent)
            (freshThree A b1 b2 b3) ax).2.1 = true ∧
        (ThreeIndexedOntology.insert (fun a => a) ((slotOps A b1).silent)
            ((slotOps A b2).silent) ((slotOps A b3).silent)
            (ThreeIndexedOntology.insert (fun a => a) ((slotOps A b1).silent)
              ((slotOps A b2).silent) ((slotOps A b3).silent)
              (freshThree A b1 b2 b3) ax).1 ax).2.1 = false ∧
        (ThreeIndexedOntology.remove ((slotOps A b1).silent) ((slotOps A b2).silent)
            ((slotOps A b3).silent) (freshThree A b1 b2 b3) ax).2.1 = false) ∧
      ((b1 || b2 || b3 || b4) = true →
        (FourIndexedOntology.insert (fun a => a) ((slotOps A b1).silent)
            ((slotOps A b2).silent) ((slotOps A b3).silent) ((slotOps A b4).silent)
            (freshFour A b1 b2 b3 b4) ax).2.1 = true ∧
        (FourIndexedOntology.insert (fun a => a) ((slotOps A b1).silent)
            ((slotOps A b2).silent) ((slotOps A b3).silent) ((slotOps A b4).silent)
            (FourIndexedOntology.insert (fun a => a) ((slotOps A b1).silent)
              ((slotOps A b2).silent) ((slotOps A b3).silent) ((slotOps A b4).silent)
              (freshFour A b1 b2 b3 b4) ax).1 ax).2.1 = false ∧
        (FourIndexedOntology.remove ((slotOps A b1).silent) ((slotOps A b2).silent)
            ((slotOps A b3).silent) ((slotOps A b4).silent)
            (freshFour A b1 b2 b3 b4) ax).2.1 = false) := by
  intro A _inst ax b1 b2 b3 b4
  refine ⟨?_, ?_, ?_, ?_⟩
  · cases b1 <;> intro h
    · exact absurd h (by decide)
    · simp [freshOne, OneIndexedOntology.new, OneIndexedOntology.insert,
        OneIndexedOntology.remove, OneIndexedOntology.take,
        OntologyIndexOps.index_take, slotOps, freshSlot, SetIndex,
        PlainOps.silent]
  · cases b1 <;> cases b2 <;> intro h
    · exact absurd h (by decide)
    all_goals
      simp [freshTwo, TwoIndexedOntology.new, TwoIndexedOntology.insert,
        TwoIndexedOntology.index_insert, TwoIndexedOntology.remove,
        TwoIndexedOntology.take, TwoIndexedOntology.asOps,
        TwoIndexedOntology.index_remove, OntologyIndexOps.index_take,
        slotOps, freshSlot, SetIndex, NullIndex, PlainOps.silent]
  · cases b1 <;> cases b2 <;> cases b3 <;> intro h
    · exact absurd h (by decide)
    all_goals
      simp [freshThree, ThreeIndexedOntology.new, ThreeIndexedOntology.insert,
        ThreeIndexedOntology.remove, ThreeIndexedOntology.take,
        ThreeIndexedOntology.index_insert, ThreeIndexedOntology.index_remove,
        ThreeIndexedOntology.asOps, TwoIndexedOntology.new,
        TwoIndexedOntology.insert, TwoIndexedOntology.index_insert,
        TwoIndexedOntology.take, TwoIndexedOntology.index_remove,
        TwoIndexedOntology.asOps, OntologyIndexOps.index_take,
        slotOps, freshSlot, SetIndex, NullIndex, PlainOps.silent]
  · cases b1 <;> cases b2 <;> cases b3 <;> cases b4 <;> intro h
    · exact absurd h (by decide)
    all_goals
      simp [freshFour, FourIndexedOntology.new, FourIndexedOntology.insert,
        FourIndexedOntology.remove, FourIndexedOntology.take,
        ThreeIndexedOntology.new, ThreeIndexedOntology.index_insert,
        ThreeIndexedOntology.index_remove, ThreeIndexedOntology.asOps,
        TwoIndexedOntology.new, TwoIndexedOntology.insert,
        TwoIndexedOntology.index_insert, TwoIndexedOntology.take,
        TwoIndexedOntology.index_remove, TwoIndexedOntology.asOps,
        OntologyIndexOps.index_take, slotOps, freshSlot, SetIndex, NullIndex,
        PlainOps.silent]

/-- C3 (counterexample to the claim as stated): a genuine arity-1 composite whose
slot configuration is the null index returns false already on the FIRST insert of
an axiom, not true. -/
theorem null_slot_composite_first_insert_returns_false :
    (OneIndexedOntology.insert (fun a => a)
        ((NullIndex : PlainOps Nat Nat Unit).silent)
        (OneIndexedOntology.new () : OneIndexedOntology Unit Unit) 0).2.1 = false :=
  rfl

/-- C3 witness: the amended statement applied to the concrete two-composite over
a set slot and a null slot, with the axiom 0. -/
theorem fresh_insert_twice_witness :
    ((true || false) = true) ∧
      ((TwoIndexedOntology.insert (fun a => a) ((slotOps Nat true).silent)
          ((slotOps Nat false).silent) (freshTwo Nat true false) 0).2.1 = true ∧
        (TwoIndexedOntology.insert (fun a => a) ((slotOps Nat true).silent)
          ((slotOps Nat false).silent)
          (TwoIndexedOntology.insert (fun a => a) ((slotOps Nat true).silent)
            ((slotOps Nat false).silent) (freshTwo Nat true false) 0).1 0).2.1 =
          false ∧
        (TwoIndexedOntology.remove ((slotOps Nat true).silent)
          ((slotOps Nat false).silent) (freshTwo Nat true false) 0).2.1 = false) :=
  ⟨by decide,
    (fresh_insert_twice_true_then_false_and_remove_absent_false 0
      true false false false).2.1 (by decide)⟩

/-- C5 (counterexample to the claim as stated): `badTypeIri` matches no known
suffix, so the claim says the call fails with the "unrecognized entity type"
error; instead the code aborts (modelled `none`), because byte offset 30 of this
(valid UTF-8) type IRI is not a character boundary. -/
theorem unmatched_type_iri_without_boundary_gives_no_error :
    recognizedTypeIri badTypeIri = false ∧
      entity_for_iri badTypeIri exampleIri = none :=
  ⟨rfl, rfl⟩

/-- C5 (amended): for inputs whose byte offset 30 falls on a character boundary of
the type IRI, `entity_for_iri` returns a constructed named entity exactly when the
type IRI carries a recognized type suffix (or is the RDF-schema Datatype IRI), and
fails with an "unrecognized entity type" error exactly when the type IRI matches
no known suffix or is too short to contain one; in particular
`.../owl#Class` with a valid entity IRI succeeds and yields a class entity while
the unrecognized suffix `.../owl#Fred` fails. -/
theorem entity_for_iri_ok_iff_recognized_on_boundary :
    (∀ t e : List Nat, is_char_boundary t 30 = true →
      ((recognizedTypeIri t = true →
          ∃ ne, entity_for_iri t e = some (Except.ok ne)) ∧
        (recognizedTypeIri t = false →
          ∃ msg, entity_for_iri t e = some (Except.error msg)))) ∧
    entity_for_iri owlClassIri exampleIri =
      some (Except.ok (NamedEntity.owlClass exampleIri)) ∧
    entity_for_iri owlFredIri exampleIri =
      some (Except.error (ascii "IRI is not a type of entity:" ++ owlFredIri)) := by
  refine ⟨?_, rfl, rfl⟩
  intro t e hb
  by_cases h1 : t = ascii "http://www.w3.org/2000/01/rdf-schema#Datatype"
  · constructor
    · intro _
      exact ⟨NamedEntity.datatype e, by simp [entity_for_iri, h1]⟩
    · intro hrec
      simp [recognizedTypeIri, h1] at hrec
  · by_cases h2 : t.length < 30
    · constructor
      · intro hrec
        simp [recognizedTypeIri, h1, Nat.not_le.mpr h2] at hrec
      · intro _
        exact ⟨ascii "IRI is not for a type of entity:" ++ t,
          by simp [entity_for_iri, h1, h2]⟩
    · by_cases s1 : t.drop 30 = ascii "Class"
      · constructor
        · intro _
          exact ⟨NamedEntity.owlClass e, by simp [entity_for_iri, h1, h2, hb, s1]⟩
        · intro hrec
          simp [recognizedTypeIri, h1, s1, Nat.not_lt.mp h2] at hrec
      · by_cases s2 : t.drop 30 = ascii "ObjectProperty"
        · constructor
          · intro _
            exact ⟨NamedEntity.objectProperty e,
              by simp +decide [entity_for_iri, h1, h2, hb, s1, s2]⟩
          · intro hrec
            simp [recognizedTypeIri, h1, s2, Nat.not_lt.mp h2] at hrec
        · by_cases s3 : t.drop 30 = ascii "DatatypeProperty"
          · constructor
            · intro _
              exact ⟨NamedEntity.dataProperty e,
                by simp +decide [entity_for_iri, h1, h2, hb, s1, s2, s3]⟩
            · intro hrec
              simp [recognizedTypeIri, h1, s3, Nat.not_lt.mp h2] at hrec
          · by_cases s4 : t.drop 30 = ascii "AnnotationProperty"
            · constructor
              · intro _
                exact ⟨NamedEntity.annProperty e,
                  by simp +decide [entity_for_iri, h1, h2, hb, s1, s2, s3, s4]⟩
              · intro hrec
                simp [recognizedTypeIri, h1, s4, Nat.not_lt.mp h2] at hrec
            · by_cases s5 : t.drop 30 = ascii "NamedIndividual"
              · constructor
                · intro _
                  exact ⟨NamedEntity.namedIndividual e,
                    by simp +decide [entity_for_iri, h1, h2, hb, s1, s2, s3, s4, s5]⟩
                · intro hrec
                  simp [recognizedTypeIri, h1, s5, Nat.not_lt.mp h2] at hrec
              · constructor
                · intro hrec
                  simp [recognizedTypeIri, h1, s1, s2, s3, s4, s5] at hrec
                · intro _
                  exact ⟨ascii "IRI is not a type of entity:" ++ t,
                    by simp +decide [entity_for_iri, h1, h2, hb, s1, s2, s3, s4, s5]⟩

/-- C5 witness: the amended characterization applied at the `.../owl#Class` type
IRI, whose byte offset 30 is a character boundary. -/
theorem entity_for_iri_ok_iff_recognized_witness :
    is_char_boundary owlClassIri 30 = true ∧
      ((recognizedTypeIri owlClassIri = true →
          ∃ ne, entity_for_iri owlClassIri exampleIri = some (Except.ok ne)) ∧
        (recognizedTypeIri owlClassIri = false →
          ∃ msg, entity_for_iri owlClassIri exampleIri = some (Except.error msg))) :=
  ⟨rfl, entity_for_iri_ok_iff_recognized_on_boundary.1 owlClassIri exampleIri rfl⟩
